import Mathlib

/-!
Verification development for the my-recipes-aws backend.

The embedding models the three request handlers found in the repository
(`getAllRecipes` via a full-table `ScanCommand`, the like handler via a
`TransactWriteCommand`, and `getRecipe` via a `GetCommand`) together with
the DynamoDB table declared in `cdk/lib/appStack.ts` (primary key schema
`PK`/`SK`, both strings).  JavaScript objects are modelled as association
lists of attribute names to dynamic values, and the DynamoDB document
client is modelled as a state transformer over a list of stored items.
-/

set_option autoImplicit false

/-- A dynamic JavaScript value as seen by the DynamoDB document client:
strings, (integer) numbers, booleans, `null` and `undefined`.  Only the
fragment exercised by the handlers is modelled; JS numbers are taken to be
integers since the handlers only manipulate `likeCount`. -/
inductive DVal where
  | s (v : String)
  | n (v : Int)
  | b (v : Bool)
  | null
  | undef
  deriving DecidableEq, Repr

/-- A JavaScript object / DynamoDB item: an association list from attribute
names to values.  Objects produced by `JSON.parse` have pairwise distinct
keys. -/
abbrev Item := List (String × DVal)

/-- The table state: the list of stored items, in storage order. -/
abbrev Table := List Item

/-- JS property access `o.k`: the value of the first binding of `k`, or
`undefined` when the attribute is absent. -/
def objGetD : Item → String → DVal
  | [], _ => .undef
  | kv :: rest, k => if kv.1 = k then kv.2 else objGetD rest k

/-- JS property assignment `o[k] = v`: replaces the first binding of `k` in
place, or appends a new binding at the end. -/
def objSet : Item → String → DVal → Item
  | [], k, v => [(k, v)]
  | kv :: rest, k, v => if kv.1 = k then (k, v) :: rest else kv :: objSet rest k v

/-- JS object spread `\x7b ...base, ...extra \x7d` restricted to the shape used by
the like handler: every binding of `extra` is assigned over `base` in
order, so a key occurring in both takes its value from `extra`. -/
def spreadInto (base : Item) (extra : Item) : Item :=
  extra.foldl (fun acc kv => objSet acc kv.1 kv.2) base

/-- JS template-literal coercion of a value to a string, as in
`LIKE#$\x7bbody.recipeId\x7d`: an absent attribute renders as `undefined`. -/
def jsToString : DVal → String
  | .s v => v
  | .n v => toString v
  | .b true => "true"
  | .b false => "false"
  | .null => "null"
  | .undef => "undefined"

/-- Kernel-friendly string prefix test (equivalent to `String.startsWith`). -/
def hasPrefixB (p s : String) : Bool :=
  p.toList.isPrefixOf s.toList

/-- Kernel-friendly lexicographic comparison of strings by character code. -/
def charListLe : List Char → List Char → Bool
  | [], _ => true
  | _ :: _, [] => false
  | a :: as, c :: cs =>
      if a.toNat < c.toNat then true
      else if a.toNat = c.toNat then charListLe as cs
      else false

/-- `strLeB a b` is true when `a` is lexicographically at most `b`. -/
def strLeB (a c : String) : Bool :=
  charListLe a.toList c.toList

/-- The error object caught by a handler's `catch` branch: either a
`ZodError` thrown by schema validation or a `ValidationException` raised by
DynamoDB. -/
inductive JsError where
  | zodError
  | dynamoValidationException
  deriving DecidableEq, Repr

/-- The payload carried by an `apiResponse`: nothing, a single raw item, a
list of raw items, a transaction acknowledgement, or — on the failure
paths — the raw caught error object itself. -/
inductive RespData where
  | empty
  | item (it : Item)
  | items (l : List Item)
  | txOk
  | rawError (e : JsError)
  deriving DecidableEq, Repr

/-- The serialized handler response: HTTP status code, message and data, as
assembled by `utils/response.ts`'s `apiResponse(code, message, data)`. -/
structure Resp where
  statusCode : Nat
  message : String
  data : RespData
  deriving DecidableEq, Repr

/-- `apiResponse(code, message, data)` from `utils/response`. -/
def apiResponse (code : Nat) (msg : String) (d : RespData) : Resp :=
  ⟨code, msg, d⟩

/-- The items of a response, when it carries a list. -/
def respItems (r : Resp) : List Item :=
  match r.data with
  | .items l => l
  | _ => []

/-- The two primary key attributes of the table, as declared in
`cdk/lib/appStack.ts` (`partitionKey: PK`, `sortKey: SK`). -/
def tableKeyAttrs : List String := ["PK", "SK"]

/-- DynamoDB accepts the `Key` of an `Update` only when its attribute names
are exactly the table's key schema; otherwise the request fails with a
`ValidationException` ("the provided key element does not match the
schema"). -/
def validTxKey (key : Item) : Bool :=
  let attrs := key.map Prod.fst
  attrs.contains "PK" && attrs.contains "SK" && attrs.length == 2

/-- Whether two items occupy the same `(PK, SK)` slot of the table. -/
def sameKeyB (a c : Item) : Bool :=
  decide (objGetD a "PK" = objGetD c "PK") && decide (objGetD a "SK" = objGetD c "SK")

/-- Point read at `(pk, sk)`, the semantics of `GetCommand`. -/
def findByKey (t : Table) (pk sk : DVal) : Option Item :=
  t.find? (fun it => decide (objGetD it "PK" = pk) && decide (objGetD it "SK" = sk))

/-- Unconditional `Put`: replaces the item at the same `(PK, SK)` slot, or
inserts a new item. -/
def putItem (t : Table) (item : Item) : Table :=
  if t.any (fun it => sameKeyB it item) then
    t.map (fun it => if sameKeyB it item then item else it)
  else
    t ++ [item]

/-- A member of the `TransactItems` list sent by the like handler: either
the `Update` with expression `SET likeCount = likeCount + :increment`
(`:increment = 1`) at the given `Key`, or an unconditional `Put`. -/
inductive TxOp where
  | updateIncLikeCount (key : Item)
  | put (item : Item)
  deriving DecidableEq, Repr

/-- One transaction member against a table state.  An `Update` whose `Key`
does not match the table key schema, or whose `SET likeCount = likeCount +
:increment` expression references a `likeCount` operand that does not exist
(item absent or attribute absent / non-numeric), raises a
`ValidationException`.  Neither operation of the like handler carries a
`ConditionExpression`, so no conditional check is modelled for them. -/
def applyTxOp (t : Table) : TxOp → Except JsError Table
  | .updateIncLikeCount key =>
      if validTxKey key then
        match findByKey t (objGetD key "PK") (objGetD key "SK") with
        | some it =>
            match objGetD it "likeCount" with
            | .n v => .ok (t.map (fun x => if sameKeyB x it then objSet it "likeCount" (.n (v + 1)) else x))
            | _ => .error .dynamoValidationException
        | none => .error .dynamoValidationException
      else .error .dynamoValidationException
  | .put item => .ok (putItem t item)

/-- `TransactWriteCommand`: all-or-nothing application of the members in
order; any failure aborts the whole transaction (the caller keeps the
original state). -/
def runTx (ops : List TxOp) (t : Table) : Except JsError Table :=
  ops.foldlM applyTxOp t

namespace Like

/-- Modelled from the spec: the zod schema `schemas/like` is not under
`src/`.  Per the spec's data model and validation layer, a Like item
requires its identifiers `recipeId` and `userName` as non-empty strings,
a non-empty `createdAt` string, `recordType` fixed to the string `LIKE`,
and `LIKE#`-prefixed string keys `PK` and `SK`; unknown extra attributes
are accepted (zod object schemas are non-strict).  `Like.parse(newItem)`
succeeds exactly when this predicate holds. -/
def parse (item : Item) : Bool :=
  (match objGetD item "recipeId" with | .s v => !(v = "") | _ => false) &&
  (match objGetD item "userName" with | .s v => !(v = "") | _ => false) &&
  (match objGetD item "createdAt" with | .s v => !(v = "") | _ => false) &&
  (match objGetD item "recordType" with | .s v => v = "LIKE" | _ => false) &&
  (match objGetD item "PK" with | .s v => hasPrefixB "LIKE#" v | _ => false) &&
  (match objGetD item "SK" with | .s v => hasPrefixB "LIKE#" v | _ => false)

end Like

/-- The `newItem` object built by the like handler:
`\x7b PK: LIKE#$\x7bbody.recipeId\x7d, SK: LIKE#$\x7bbody.userName\x7d, ...body \x7d`.
The body is spread after the computed keys, so a body attribute named `PK`
or `SK` overrides the computed key. -/
def newItemOf (body : Item) : Item :=
  spreadInto
    [("PK", .s ("LIKE#" ++ jsToString (objGetD body "recipeId"))),
     ("SK", .s ("LIKE#" ++ jsToString (objGetD body "userName")))]
    body

/-- The `TransactItems` list of the like handler's `params`: an `Update` at
`Key \x7b recipeId: body.recipeId \x7d` incrementing `likeCount`, then a `Put` of
`newItem` — note the `Update` key uses the attribute name `recipeId`, not
the table's `PK`/`SK` schema, and neither member has a condition. -/
def likeTxOps (body : Item) (newItem : Item) : List TxOp :=
  [.updateIncLikeCount [("recipeId", objGetD body "recipeId")], .put newItem]

/-- The like handler, after `JSON.parse` succeeded on the request body.
Inside the `try` block it first runs `Like.parse(newItem)`; a thrown
`ZodError` reaches the `catch` before any storage command is sent.
Otherwise the `TransactWriteCommand` is sent; on success the handler
returns `201`, and any caught error returns `apiResponse(500, "Error:
Cannot create like", error)` with the raw error as data.  The result is
the response, the table state after the call, and the number of storage
commands sent. -/
def likeRecipe (body : Item) (t : Table) : Resp × Table × Nat :=
  let newItem := newItemOf body
  if Like.parse newItem then
    match runTx (likeTxOps body newItem) t with
    | .ok t2 => (apiResponse 201 "Success: Like created" .txOk, t2, 1)
    | .error e => (apiResponse 500 "Error: Cannot create like" (.rawError e), t, 1)
  else
    (apiResponse 500 "Error: Cannot create like" (.rawError .zodError), t, 0)

/-- The `getRecipe` handler: guards falsy (empty) path parameters with a
`400`, then issues a `GetCommand` at `PK = USER#<username>`,
`SK = RECIPE#<id>`; an absent item yields `404`, a present one `200`.  The
second component records the keys actually read from the store. -/
def getRecipe (username id : String) (t : Table) : Resp × List (String × String) :=
  if id = "" ∨ username = "" then
    (apiResponse 400 "Error: Invalid ID or username" .empty, [])
  else
    let pk := "USER#" ++ username
    let sk := "RECIPE#" ++ id
    match findByKey t (.s pk) (.s sk) with
    | none => (apiResponse 404 "Error: Item not found" .empty, [(pk, sk)])
    | some it => (apiResponse 200 "Success: Item retrieved" (.item it), [(pk, sk)])

/-- The semantics of the bare `ScanCommand \x7b TableName \x7d` sent by
`getAllRecipes`: every item of the table, in storage order, with no filter
expression, no index name and no `ExclusiveStartKey` (the model elides the
provider's page-size limit). -/
def scan (t : Table) : List Item := t

/-- The `getAllRecipes` handler: one unfiltered scan of the primary table,
returned as a `200` response listing the scanned items. -/
def getAllRecipes (t : Table) : Resp :=
  apiResponse 200 "Successfully retrieved recipes" (.items (scan t))

/-- The `createdAt` attribute of an item, coerced to a string. -/
def createdAtStr (it : Item) : String :=
  jsToString (objGetD it "createdAt")

/-- Whether a list of items is sorted by `createdAt` ascending. -/
def createdAtAscB : List Item → Bool
  | [] => true
  | [_] => true
  | a :: c :: rest => strLeB (createdAtStr a) (createdAtStr c) && createdAtAscB (c :: rest)

/-!
## Record codec

Modelled from the spec: the codec between domain payloads and raw DynamoDB
attribute values is the marshalling performed by `@aws-sdk/util-dynamodb`'s
`marshall`/`unmarshall` (library code, not under `src/`; `getAllRecipes`
calls `unmarshall` directly).  JSON-style domain values are translated to
DynamoDB `AttributeValue`s (`S`, `N`, `BOOL`, `NULL`, `L`, `M`) and back.
DynamoDB numbers are carried by their integer value rather than their
decimal string rendering.
-/

mutual
/-- A domain-side JSON value: the payload shape handled by the document
client. -/
inductive JVal where
  | str (s : String)
  | num (n : Int)
  | boolVal (v : Bool)
  | nullVal
  | arr (elems : JArr)
  | obj (fields : JObj)

/-- A list of domain values. -/
inductive JArr where
  | nil
  | cons (hd : JVal) (tl : JArr)

/-- A domain object: ordered fields mapping attribute names to values. -/
inductive JObj where
  | nil
  | cons (key : String) (val : JVal) (tl : JObj)
end

mutual
/-- A raw DynamoDB `AttributeValue`. -/
inductive AVal where
  | S (s : String)
  | N (n : Int)
  | BOOL (v : Bool)
  | NULL
  | L (elems : AVList)
  | M (fields : AVMap)

/-- A list of raw attribute values (`L`). -/
inductive AVList where
  | nil
  | cons (hd : AVal) (tl : AVList)

/-- A raw attribute map (`M`, also the shape of a whole raw item). -/
inductive AVMap where
  | nil
  | cons (key : String) (val : AVal) (tl : AVMap)
end

mutual
/-- `marshall`: domain value to raw attribute value. -/
def marshall : JVal → AVal
  | .str s => .S s
  | .num n => .N n
  | .boolVal v => .BOOL v
  | .nullVal => .NULL
  | .arr l => .L (marshallArr l)
  | .obj o => .M (marshallObj o)

/-- `marshall` on lists. -/
def marshallArr : JArr → AVList
  | .nil => .nil
  | .cons h tl => .cons (marshall h) (marshallArr tl)

/-- `marshall` on attribute maps: every field is marshalled, none is
dropped — unknown attributes pass through. -/
def marshallObj : JObj → AVMap
  | .nil => .nil
  | .cons k v tl => .cons k (marshall v) (marshallObj tl)
end

mutual
/-- `unmarshall`: raw attribute value back to a domain value. -/
def unmarshall : AVal → JVal
  | .S s => .str s
  | .N n => .num n
  | .BOOL v => .boolVal v
  | .NULL => .nullVal
  | .L l => .arr (unmarshallArr l)
  | .M o => .obj (unmarshallObj o)

/-- `unmarshall` on lists. -/
def unmarshallArr : AVList → JArr
  | .nil => .nil
  | .cons h tl => .cons (unmarshall h) (unmarshallArr tl)

/-- `unmarshall` on attribute maps. -/
def unmarshallObj : AVMap → JObj
  | .nil => .nil
  | .cons k v tl => .cons k (unmarshall v) (unmarshallObj tl)
end

/-- Field lookup in a domain object. -/
def jobjLookup : JObj → String → Option JVal
  | .nil, _ => none
  | .cons k v tl, key => if k = key then some v else jobjLookup tl key

/-- A valid Recipe payload per the spec's data model: `USER#`-prefixed
string `PK`, `RECIPE#`-prefixed string `SK`, a non-negative integer
`likeCount`, a string `createdAt`, and `recordType` equal to `RECIPE`.
Extra attributes beyond these are permitted. -/
def isRecipePayload (o : JObj) : Bool :=
  (match jobjLookup o "PK" with | some (.str v) => hasPrefixB "USER#" v | _ => false) &&
  (match jobjLookup o "SK" with | some (.str v) => hasPrefixB "RECIPE#" v | _ => false) &&
  (match jobjLookup o "likeCount" with | some (.num v) => decide (0 ≤ v) | _ => false) &&
  (match jobjLookup o "createdAt" with | some (.str _) => true | _ => false) &&
  (match jobjLookup o "recordType" with | some (.str v) => v = "RECIPE" | _ => false)

/-!
## Request body parsing

The like handler begins with `JSON.parse(event.body || \x7b\x7d)` on line 12 of
the handler, OUTSIDE the `try`/`catch` that starts at line 39: a thrown
`SyntaxError` propagates out of the handler unhandled.  When `event.body`
is absent (or the empty string), `event.body || \x7b\x7d` evaluates to a fresh
object, which `JSON.parse` coerces to the string `[object Object]` — not
valid JSON, so it throws.

`jsonParse` is a restricted model of the `JSON.parse` builtin (platform
code, not part of the repository): it accepts flat JSON objects whose
member values are escape-free strings, integers, `true`, `false` or
`null`, and accepts top-level scalars as an object with no own properties
(property access on a JS primitive yields `undefined` and spreading it
contributes nothing).  Nested structures, floats and escapes are outside
the modelled fragment and are rejected; every input the theorems touch is
either inside the fragment or invalid under any JSON grammar.
-/

/-- Drop leading JSON whitespace. -/
def skipWs : List Char → List Char
  | [] => []
  | c :: rest =>
      if c = ' ' || c = '\n' || c = '\t' || c = '\r' then skipWs rest
      else c :: rest

/-- Consume an escape-free JSON string body up to the closing quote. -/
def takeStr (acc : List Char) : List Char → Except Unit (String × List Char)
  | [] => .error ()
  | c :: rest =>
      if c = '"' then .ok (String.mk acc.reverse, rest)
      else if c = '\\' then .error ()
      else takeStr (c :: acc) rest

/-- Consume a run of decimal digits. -/
def takeDigits (acc : List Char) : List Char → List Char × List Char
  | [] => (acc.reverse, [])
  | c :: rest =>
      if '0' ≤ c && c ≤ '9' then takeDigits (c :: acc) rest
      else (acc.reverse, c :: rest)

/-- Digits to a natural number. -/
def digitsToNat (ds : List Char) : Nat :=
  ds.foldl (fun acc c => 10 * acc + (c.toNat - '0'.toNat)) 0

/-- Parse one scalar JSON value (string, integer, `true`, `false`,
`null`). -/
def parseScalar : List Char → Except Unit (DVal × List Char)
  | [] => .error ()
  | c :: rest =>
      if c = '"' then
        match takeStr [] rest with
        | .ok (s, rest2) => .ok (.s s, rest2)
        | .error _ => .error ()
      else if c = '-' then
        match takeDigits [] rest with
        | ([], _) => .error ()
        | (ds, rest2) => .ok (.n (-(digitsToNat ds : Int)), rest2)
      else if '0' ≤ c && c ≤ '9' then
        match takeDigits [] (c :: rest) with
        | ([], _) => .error ()
        | (ds, rest2) => .ok (.n (digitsToNat ds : Int), rest2)
      else if c = 't' then
        match rest with
        | 'r' :: 'u' :: 'e' :: rest2 => .ok (.b true, rest2)
        | _ => .error ()
      else if c = 'f' then
        match rest with
        | 'a' :: 'l' :: 's' :: 'e' :: rest2 => .ok (.b false, rest2)
        | _ => .error ()
      else if c = 'n' then
        match rest with
        | 'u' :: 'l' :: 'l' :: rest2 => .ok (.null, rest2)
        | _ => .error ()
      else .error ()

/-- Parse the members of a flat JSON object after the opening brace (with
`first` true before any member has been read).  `fuel` bounds the
recursion by the input length. -/
def parseMembers (fuel : Nat) (first : Bool) (acc : Item) (s : List Char) :
    Except Unit (Item × List Char) :=
  match fuel with
  | 0 => .error ()
  | fuel + 1 =>
      match skipWs s with
      | [] => .error ()
      | c :: rest =>
          if c = '\x7d' && first then .ok (acc.reverse, rest)
          else
            match (if first then Except.ok (c :: rest) else
                     if c = '\x7d' then Except.ok ([] : List Char) else
                     if c = ',' then Except.ok rest
                     else (Except.error () : Except Unit (List Char))) with
            | .error _ => .error ()
            | .ok [] => .ok (acc.reverse, rest)
            | .ok s2 =>
                match skipWs s2 with
                | '"' :: s3 =>
                    match takeStr [] s3 with
                    | .error _ => .error ()
                    | .ok (key, s4) =>
                        match skipWs s4 with
                        | ':' :: s5 =>
                            match parseScalar (skipWs s5) with
                            | .error _ => .error ()
                            | .ok (v, s6) => parseMembers fuel false ((key, v) :: acc) s6
                        | _ => .error ()
                | _ => .error ()

/-- Restricted model of the `JSON.parse` builtin; see the section comment
for the supported fragment. -/
def jsonParse (src : String) : Except Unit Item :=
  let cs := skipWs src.toList
  match cs with
  | '\x7b' :: rest =>
      match parseMembers (rest.length + 1) true [] rest with
      | .ok (o, rest2) =>
          match skipWs rest2 with
          | [] => .ok o
          | _ => .error ()
      | .error _ => .error ()
  | _ =>
      match parseScalar cs with
      | .ok (_, rest2) =>
          match skipWs rest2 with
          | [] => .ok []
          | _ => .error ()
      | .error _ => .error ()

/-- `event.body || \x7b\x7d` followed by `JSON.parse`'s string coercion: an
absent or empty body yields the string `[object Object]`. -/
def bodyOrDefault : Option String → String
  | none => "[object Object]"
  | some s => if s = "" then "[object Object]" else s

/-- The like handler including the body parse on its first line.  A parse
failure is an unhandled exception (`Except.error`): no tagged response, no
validation, no storage command, table unchanged. -/
def likeHandlerRaw (rawBody : Option String) (t : Table) :
    Except Unit Resp × Table × Nat :=
  match jsonParse (bodyOrDefault rawBody) with
  | .error _ => (.error (), t, 0)
  | .ok body =>
      let r := likeRecipe body t
      (.ok r.1, r.2.1, r.2.2)

/-!
## Concrete fixtures
-/

/-- A well-formed like request body for recipe `r1` by `bob`. -/
def goodLikeBody : Item :=
  [("recipeId", .s "r1"), ("userName", .s "bob"),
   ("createdAt", .s "2024-01-01T00:00:00Z"), ("recordType", .s "LIKE")]

/-- The stored Recipe `r1` of `alice` with `likeCount` 0. -/
def recipeItemR1 : Item :=
  [("PK", .s "USER#alice"), ("SK", .s "RECIPE#r1"),
   ("recordType", .s "RECIPE"), ("likeCount", .n 0),
   ("createdAt", .s "2024-01-01T00:00:00Z")]

/-- A table holding exactly the Recipe `r1`. -/
def recipeTableR1 : Table := [recipeItemR1]

/-- A like body that passes validation but carries its own `SK`
attribute. -/
def overrideBody : Item :=
  [("recipeId", .s "r1"), ("userName", .s "bob"),
   ("createdAt", .s "2024-02-02T00:00:00Z"), ("recordType", .s "LIKE"),
   ("SK", .s "LIKE#mallory")]

/-- A like body with no `PK`/`SK` attributes of its own. -/
def plainLikeBody : Item :=
  [("recipeId", .s "r9"), ("userName", .s "carol"),
   ("createdAt", .s "2024-03-03T00:00:00Z"), ("recordType", .s "LIKE")]

/-- A stored User item. -/
def userItemDave : Item :=
  [("PK", .s "USER#dave"), ("SK", .s "USER#dave"),
   ("recordType", .s "USER"), ("createdAt", .s "2024-01-05T00:00:00Z")]

/-- A table holding a User item (no Recipe at all). -/
def mixedTable : Table := [userItemDave]

/-- A Recipe created later than `earlyRecipeItem` but stored first. -/
def lateRecipeItem : Item :=
  [("PK", .s "USER#fay"), ("SK", .s "RECIPE#r8"),
   ("recordType", .s "RECIPE"), ("likeCount", .n 0),
   ("createdAt", .s "2024-02-01")]

/-- A Recipe created earlier than `lateRecipeItem` but stored second. -/
def earlyRecipeItem : Item :=
  [("PK", .s "USER#gil"), ("SK", .s "RECIPE#r7"),
   ("recordType", .s "RECIPE"), ("likeCount", .n 0),
   ("createdAt", .s "2024-01-01")]

/-- A table whose storage order disagrees with `createdAt` order. -/
def unsortedTable : Table := [lateRecipeItem, earlyRecipeItem]

/-- A well-formed like request body for recipe `r2` by `erin`. -/
def storeErrBody : Item :=
  [("recipeId", .s "r2"), ("userName", .s "erin"),
   ("createdAt", .s "2024-04-04T00:00:00Z"), ("recordType", .s "LIKE")]

/-- A valid Recipe payload carrying a nested list and an unknown extra
attribute. -/
def exRecipePayload : JObj :=
  .cons "PK" (.str "USER#alice")
    (.cons "SK" (.str "RECIPE#r1")
      (.cons "likeCount" (.num 3)
        (.cons "createdAt" (.str "2024-01-01T00:00:00Z")
          (.cons "recordType" (.str "RECIPE")
            (.cons "tags" (.arr (.cons (.str "vegan") .nil))
              (.cons "unknownAttr" (.num 7) .nil))))))

/-!
## Helper lemmas
-/

/-- Assigning a different key leaves a property access unchanged. -/
theorem objGetD_objSet_ne (o : Item) (k k2 : String) (v : DVal) (h : k2 ≠ k) :
    objGetD (objSet o k2 v) k = objGetD o k := by
  induction o with
  | nil => simp [objSet, objGetD, h]
  | cons kv rest ih =>
      by_cases h1 : kv.1 = k2
      · simp [objSet, objGetD, h1, h]
      · by_cases h2 : kv.1 = k
        · simp [objSet, objGetD, h1, h2, Ne.symm h]
        · simp [objSet, objGetD, h1, h2, ih]

/-- Spreading an object that does not bind `k` leaves the base object's
`k` property unchanged. -/
theorem objGetD_spreadInto_of_not_bound (extra : Item) (base : Item) (k : String)
    (h : ∀ kv ∈ extra, kv.1 ≠ k) :
    objGetD (spreadInto base extra) k = objGetD base k := by
  induction extra generalizing base with
  | nil => rfl
  | cons kv rest ih =>
      have h1 : kv.1 ≠ k := h kv (List.mem_cons_self kv rest)
      have h2 : ∀ x ∈ rest, x.1 ≠ k := fun x hx => h x (List.mem_cons_of_mem _ hx)
      show objGetD (spreadInto (objSet base kv.1 kv.2) rest) k = objGetD base k
      rw [ih (objSet base kv.1 kv.2) h2, objGetD_objSet_ne base k kv.1 kv.2 h1]

/-- The transaction sent by the like handler is rejected on every table
state: its `Update` member's `Key` has attribute `recipeId`, which does not
match the table's `PK`/`SK` key schema. -/
theorem runTx_like_fails (body newItem : Item) (t : Table) :
    runTx (likeTxOps body newItem) t = .error .dynamoValidationException := rfl

mutual
/-- Unmarshalling a marshalled domain value is the identity. -/
theorem unmarshall_marshall : ∀ v : JVal, unmarshall (marshall v) = v
  | .str _ => rfl
  | .num _ => rfl
  | .boolVal _ => rfl
  | .nullVal => rfl
  | .arr l => congrArg JVal.arr (unmarshallArr_marshallArr l)
  | .obj o => congrArg JVal.obj (unmarshallObj_marshallObj o)

/-- Round trip on lists of domain values. -/
theorem unmarshallArr_marshallArr : ∀ l : JArr, unmarshallArr (marshallArr l) = l
  | .nil => rfl
  | .cons hd tl => by
      simp only [marshallArr, unmarshallArr, unmarshall_marshall hd,
        unmarshallArr_marshallArr tl]

/-- Round trip on attribute maps. -/
theorem unmarshallObj_marshallObj : ∀ o : JObj, unmarshallObj (marshallObj o) = o
  | .nil => rfl
  | .cons k v tl => by
      simp only [marshallObj, unmarshallObj, unmarshall_marshall v,
        unmarshallObj_marshallObj tl]
end

/-!
## Claim theorems
-/

/-- C1: the claim asserts that `likeRecipe` atomically increments the
recipe's `likeCount` and inserts the Like in one all-or-nothing
transaction.  In the code, the transaction's `Update` member addresses
`Key \x7b recipeId \x7d`, which does not match the table's declared `PK`/`SK`
key schema, so the transaction is rejected on every invocation: no
invocation ever succeeds, increments `likeCount`, or inserts a Like — the
handler always returns `500` and leaves the table unchanged. -/
theorem likeRecipe_never_succeeds (body : Item) (t : Table) :
    (likeRecipe body t).1.statusCode = 500 ∧ (likeRecipe body t).2.1 = t := by
  unfold likeRecipe
  by_cases h : Like.parse (newItemOf body) <;>
    simp [h, runTx_like_fails, apiResponse]

/-- C2: the claim asserts that calling `likeRecipe` twice with the same
`(recipeId, username)` pair from a state where the Recipe exists and the
Like does not yields one success and one `Conflict`, with `likeCount`
rising by exactly 1.  Evaluating the code: both calls return `500`
(neither a success nor a `Conflict` tag exists), the table after both
calls is the initial one, and the stored `likeCount` is still `0`. -/
theorem likeRecipe_twice_no_conflict :
    (likeRecipe goodLikeBody recipeTableR1).1.statusCode = 500 ∧
    (likeRecipe goodLikeBody ((likeRecipe goodLikeBody recipeTableR1).2.1)).1.statusCode = 500 ∧
    (likeRecipe goodLikeBody ((likeRecipe goodLikeBody recipeTableR1).2.1)).2.1 = recipeTableR1 ∧
    findByKey recipeTableR1 (.s "USER#alice") (.s "RECIPE#r1") = some recipeItemR1 ∧
    objGetD recipeItemR1 "likeCount" = .n 0 := by decide

/-- C3 counterexample: a request body that passes `Like.parse` but carries
its own `SK` attribute; because the handler spreads the body after the
computed keys, the written sort key is the body's `LIKE#mallory`, not
`LIKE#` + the `userName` identifier `bob`. -/
theorem newItem_key_overridden_by_body :
    Like.parse (newItemOf overrideBody) = true ∧
    objGetD overrideBody "userName" = .s "bob" ∧
    objGetD (newItemOf overrideBody) "SK" = .s "LIKE#mallory" ∧
    ¬ objGetD (newItemOf overrideBody) "SK" = .s ("LIKE#" ++ "bob") := by decide

/-- C3 amended: for every body accepted by validation that does not itself
bind a `PK` or `SK` attribute, the constructed Like item's keys are
exactly `LIKE#` + recipeId and `LIKE#` + userName, computed from the two
identifiers alone. -/
theorem newItem_keys_without_override (body : Item) (r u : String)
    (hr : objGetD body "recipeId" = .s r) (hu : objGetD body "userName" = .s u)
    (_hv : Like.parse (newItemOf body) = true)
    (hno : ∀ kv ∈ body, kv.1 ≠ "PK" ∧ kv.1 ≠ "SK") :
    objGetD (newItemOf body) "PK" = .s ("LIKE#" ++ r) ∧
    objGetD (newItemOf body) "SK" = .s ("LIKE#" ++ u) := by
  constructor
  · rw [newItemOf, objGetD_spreadInto_of_not_bound body _ "PK" (fun kv h => (hno kv h).1)]
    simp [objGetD, hr, jsToString]
  · rw [newItemOf, objGetD_spreadInto_of_not_bound body _ "SK" (fun kv h => (hno kv h).2)]
    simp [objGetD, hu, jsToString]

/-- C3 witness: the amended statement evaluated on a concrete body without
`PK`/`SK` attributes of its own. -/
theorem newItem_keys_without_override_witness :
    objGetD plainLikeBody "recipeId" = .s "r9" ∧
    objGetD plainLikeBody "userName" = .s "carol" ∧
    Like.parse (newItemOf plainLikeBody) = true ∧
    (∀ kv ∈ plainLikeBody, kv.1 ≠ "PK" ∧ kv.1 ≠ "SK") ∧
    (objGetD (newItemOf plainLikeBody) "PK" = .s ("LIKE#" ++ "r9") ∧
     objGetD (newItemOf plainLikeBody) "SK" = .s ("LIKE#" ++ "carol")) :=
  ⟨by decide, by decide, by decide, by decide,
    newItem_keys_without_override plainLikeBody "r9" "carol"
      (by decide) (by decide) (by decide) (by decide)⟩

/-- C4 counterexample: the listing handler issues a bare `ScanCommand` on
the primary table — no secondary index, no ordering.  On a concrete table
whose storage order disagrees with `createdAt` order, the returned page is
not sorted by `createdAt` ascending. -/
theorem getAllRecipes_not_sorted_by_createdAt :
    respItems (getAllRecipes unsortedTable) = [lateRecipeItem, earlyRecipeItem] ∧
    createdAtStr lateRecipeItem = "2024-02-01" ∧
    createdAtStr earlyRecipeItem = "2024-01-01" ∧
    createdAtAscB (respItems (getAllRecipes unsortedTable)) = false := by decide

/-- C4 amended: the listing operation performs one unfiltered full-table
scan of the primary table and returns every stored item, in storage order,
in a single `200` response; there is no index read, no `createdAt`
ordering guarantee and no continuation-token handling. -/
theorem getAllRecipes_returns_whole_table (t : Table) :
    getAllRecipes t = apiResponse 200 "Successfully retrieved recipes" (.items t) ∧
    scan t = t :=
  ⟨rfl, rfl⟩

/-- C5 counterexample: on a table holding a User item, the listing
response contains that User item — a non-Recipe record in the returned
page. -/
theorem getAllRecipes_returns_user_item :
    objGetD userItemDave "recordType" = .s "USER" ∧
    userItemDave ∈ respItems (getAllRecipes mixedTable) := by decide

/-- C5 amended: the listing result contains every item of the table
regardless of its `recordType`: the unfiltered scan preserves membership
of User and Like items alongside Recipes. -/
theorem getAllRecipes_preserves_membership (t : Table) (it : Item) (h : it ∈ t) :
    it ∈ respItems (getAllRecipes t) := h

/-- C5 witness: the amended statement evaluated on the concrete table
holding a User item. -/
theorem getAllRecipes_preserves_membership_witness :
    userItemDave ∈ mixedTable ∧
    userItemDave ∈ respItems (getAllRecipes mixedTable) :=
  ⟨by decide, getAllRecipes_preserves_membership mixedTable userItemDave (by decide)⟩

/-- C6 counterexample: for the pair `("", "")` no Recipe was ever created,
yet `getRecipe` returns `400` (the falsy-parameter guard), not `404`, and
performs no point read at all. -/
theorem getRecipe_empty_pair_not_notfound :
    findByKey [] (.s ("USER#" ++ "")) (.s ("RECIPE#" ++ "")) = none ∧
    getRecipe "" "" [] = (apiResponse 400 "Error: Invalid ID or username" .empty, []) ∧
    ¬ (getRecipe "" "" []).1.statusCode = 404 := by decide

/-- C6 amended: for every pair with non-empty `username` and `id` such
that no Recipe is stored under `PK = USER#username`, `SK = RECIPE#id`,
`getRecipe` returns `404` (NotFound, never a storage fault) and the point
read is performed at exactly that key; empty identifiers short-circuit to
`400` without touching the store. -/
theorem getRecipe_absent_returns_notfound (username id : String) (t : Table)
    (hu : ¬ username = "") (hi : ¬ id = "")
    (habs : findByKey t (.s ("USER#" ++ username)) (.s ("RECIPE#" ++ id)) = none) :
    getRecipe username id t =
      (apiResponse 404 "Error: Item not found" .empty,
       [("USER#" ++ username, "RECIPE#" ++ id)]) := by
  have hcond : ¬ (id = "" ∨ username = "") := by
    intro hc
    rcases hc with hc | hc
    · exact hi hc
    · exact hu hc
  simp only [getRecipe, if_neg hcond, habs]

/-- C6 witness: the amended statement evaluated at `("alice", "r1")` on
the empty table. -/
theorem getRecipe_absent_returns_notfound_witness :
    (¬ ("alice" : String) = "") ∧ (¬ ("r1" : String) = "") ∧
    findByKey [] (.s ("USER#" ++ "alice")) (.s ("RECIPE#" ++ "r1")) = none ∧
    getRecipe "alice" "r1" [] =
      (apiResponse 404 "Error: Item not found" .empty,
       [("USER#" ++ "alice", "RECIPE#" ++ "r1")]) :=
  ⟨by decide, by decide, by decide,
    getRecipe_absent_returns_notfound "alice" "r1" [] (by decide) (by decide) (by decide)⟩

/-- C7: when `Like.parse` rejects the candidate Like item, the handler
reaches its `catch` before any storage command is issued: the response is
the tagged `500`, zero commands reach the store, and the table is
unchanged.  Validation runs strictly before the write. -/
theorem validation_failure_sends_nothing (body : Item) (t : Table)
    (h : Like.parse (newItemOf body) = false) :
    likeRecipe body t =
      (apiResponse 500 "Error: Cannot create like" (.rawError .zodError), t, 0) := by
  simp [likeRecipe, h]

/-- C7 witness: the empty body fails validation and sends nothing. -/
theorem validation_failure_sends_nothing_witness :
    Like.parse (newItemOf []) = false ∧
    likeRecipe [] [] =
      (apiResponse 500 "Error: Cannot create like" (.rawError .zodError), [], 0) :=
  ⟨by decide, validation_failure_sends_nothing [] [] (by decide)⟩

/-- C8 counterexample: a concrete `likeRecipe` failure whose response data
is the raw caught error object — the DynamoDB `ValidationException` is
passed straight to the caller instead of a closed-taxonomy tag, under the
single generic `500` status. -/
theorem likeRecipe_exposes_raw_error :
    (likeRecipe storeErrBody []).1 =
      apiResponse 500 "Error: Cannot create like"
        (.rawError .dynamoValidationException) := by decide

/-- C8 amended: no closed failure taxonomy exists.  Every `likeRecipe`
invocation fails with the single generic `500` response that embeds the
raw caught error object (the `ZodError` or the store's
`ValidationException`) as its data; `getRecipe` answers with plain HTTP
statuses `400`, `404` or `200`; `getAllRecipes` answers `200` (its `500`
branch is reachable only through a store fault, which the fault-free model
does not inject).  No `Conflict`, `TransactionAborted` or
`StorageUnavailable` classification is ever produced. -/
theorem failure_responses_outside_taxonomy (body : Item) (u i : String) (t : Table) :
    (∃ e, (likeRecipe body t).1 =
      apiResponse 500 "Error: Cannot create like" (.rawError e)) ∧
    ((getRecipe u i t).1.statusCode = 400 ∨ (getRecipe u i t).1.statusCode = 404 ∨
      (getRecipe u i t).1.statusCode = 200) ∧
    (getAllRecipes t).statusCode = 200 := by
  refine ⟨?_, ?_, rfl⟩
  · unfold likeRecipe
    by_cases h : Like.parse (newItemOf body)
    · exact ⟨.dynamoValidationException, by simp [h, runTx_like_fails]⟩
    · exact ⟨.zodError, by simp [h]⟩
  · unfold getRecipe
    by_cases h : i = "" ∨ u = ""
    · simp [h, apiResponse]
    · rcases hf : findByKey t (.s ("USER#" ++ u)) (.s ("RECIPE#" ++ i)) with _ | it <;>
        simp [h, hf, apiResponse]

/-- C9: for every valid Recipe payload, decoding the encoded raw item
gives back exactly the payload, every field (the defined entity fields and
any unknown extra attributes alike) carried through the
`marshall`/`unmarshall` round trip. -/
theorem recipe_decode_encode_roundtrip (p : JObj) (_h : isRecipePayload p = true) :
    unmarshallObj (marshallObj p) = p :=
  unmarshallObj_marshallObj p

/-- C9 witness: the round trip evaluated on a concrete valid Recipe
payload carrying a nested list and an unknown extra attribute. -/
theorem recipe_decode_encode_roundtrip_witness :
    isRecipePayload exRecipePayload = true ∧
    unmarshallObj (marshallObj exRecipePayload) = exRecipePayload :=
  ⟨by decide, recipe_decode_encode_roundtrip exRecipePayload (by decide)⟩

/-- C10: the body parse sits outside the handler's `try`/`catch`, so when
`JSON.parse` rejects `event.body || \x7b\x7d` the invocation ends as an
unhandled exception: no tagged response is produced, validation never
runs, zero storage commands are sent and the table is unchanged. -/
theorem unparsed_body_unhandled (rawBody : Option String) (t : Table)
    (h : jsonParse (bodyOrDefault rawBody) = .error ()) :
    likeHandlerRaw rawBody t = (.error (), t, 0) := by
  simp [likeHandlerRaw, h]

/-- C10 witness: an absent body defaults to the string `[object Object]`,
which is not JSON, so the handler raises unhandled. -/
theorem unparsed_body_unhandled_witness :
    jsonParse (bodyOrDefault none) = .error () ∧
    likeHandlerRaw none [] = (.error (), [], 0) :=
  ⟨by rfl, unparsed_body_unhandled none [] (by rfl)⟩
